import Mathlib

/-!
Verification development for the `reactivate` library: a shallow embedding of
its `Reactive` observable-value cell and of the derive/merge machinery, with
theorems checking the specification's claims against the embedded code.

The embedding follows `src/reactive.rs` (whose sequential semantics agree with
the older `src/lib.rs` / `src/base.rs` revisions).  A cell is a value together
with the ordered list of registered observers; observers are represented by
opaque tags, and every operation returns, besides the updated cell, the
notification trace of that operation: the list of (observer, value) pairs, in
invocation order, recording which observer was invoked with which value.  The
bodies of the Rust methods are transcribed one to one: an in-place mutator
`FnOnce(&mut T)` becomes a function `T → T`, and the unconditional
`call_observers` loop becomes a `map` over the observer list.
-/

namespace Reactivate

/-- Embedding of `Reactive<T>` (src/reactive.rs, lines 18-25): the current
value together with the ordered observer list.  `O` is the type of observer
identities (the boxed closures themselves are opaque; the trace semantics
below records their invocations). -/
structure Reactive (T : Type) (O : Type) where
  value : T
  observers : List O
deriving DecidableEq

/-- A notification trace: which observer was invoked with which value, in
order. -/
abbrev Log (T O : Type) := List (O × T)

/-- Embedding of `call_observers` (src/reactive.rs, lines 230-234): every
registered observer is invoked once, in list order, with the given value. -/
def callObservers {T O : Type} (r : Reactive T O) (v : T) : Log T O :=
  r.observers.map (fun o => (o, v))

/-- Embedding of `Reactive::new` (src/reactive.rs, lines 36-44): a fresh cell
with the given value and no observers. -/
def Reactive.new {T O : Type} (v : T) : Reactive T O :=
  { value := v, observers := [] }

/-- Embedding of `Reactive::add_observer` (src/reactive.rs, lines 205-207):
push the observer at the end of the list; nobody is notified. -/
def Reactive.add_observer {T O : Type} (r : Reactive T O) (o : O) : Reactive T O :=
  { r with observers := r.observers ++ [o] }

/-- Embedding of `Reactive::clear_observers` (src/reactive.rs, lines 225-227):
drop every registered observer. -/
def Reactive.clear_observers {T O : Type} (r : Reactive T O) : Reactive T O :=
  { r with observers := [] }

/-- Embedding of `Reactive::set` (src/reactive.rs, lines 340-344): overwrite
the value and call the observers unconditionally with the new value. -/
def Reactive.set {T O : Type} (r : Reactive T O) (v : T) : Reactive T O × Log T O :=
  let r2 : Reactive T O := { r with value := v }
  (r2, callObservers r2 r2.value)

/-- Embedding of `Reactive::update_unchecked` (src/reactive.rs, lines
276-280): replace the value by `f value` and notify unconditionally. -/
def Reactive.update_unchecked {T O : Type} (r : Reactive T O) (f : T → T) :
    Reactive T O × Log T O :=
  let r2 : Reactive T O := { r with value := f r.value }
  (r2, callObservers r2 r2.value)

/-- Embedding of `Reactive::update_inplace_unchecked` (src/reactive.rs, lines
319-323): apply the mutator to the value and notify unconditionally; the
`FnOnce(&mut T)` mutator is modelled as a function `T → T`. -/
def Reactive.update_inplace_unchecked {T O : Type} (r : Reactive T O) (f : T → T) :
    Reactive T O × Log T O :=
  let r2 : Reactive T O := { r with value := f r.value }
  (r2, callObservers r2 r2.value)

/-- Embedding of `Reactive::update` (src/reactive.rs, lines 361-371, and
`ReactiveInner::update` in src/lib.rs, lines 288-298): compute
`new_val = f value`; if `new_val != value`, commit it and call the observers
with the new value; otherwise leave the cell untouched and notify nobody. -/
def Reactive.update {T O : Type} [DecidableEq T] (r : Reactive T O) (f : T → T) :
    Reactive T O × Log T O :=
  let newVal := f r.value
  if newVal ≠ r.value then
    let r2 : Reactive T O := { r with value := newVal }
    (r2, callObservers r2 r2.value)
  else
    (r, [])

/-- Embedding of `Reactive::update_inplace` (src/reactive.rs, lines 394-408,
and `ReactiveInner::update_inplace` in src/lib.rs, lines 300-322): hash the
value, apply the mutator (the value stays mutated on every path), hash again,
and notify only if the two hashes differ.  The `RandomState` /
`DefaultHasher` fingerprint is modelled as an arbitrary function
`hf : T → Nat`, since the concrete hash algorithm is opaque. -/
def Reactive.update_inplace {T O : Type} (hf : T → Nat) (r : Reactive T O) (f : T → T) :
    Reactive T O × Log T O :=
  let oldHash := hf r.value
  let r2 : Reactive T O := { r with value := f r.value }
  let newHash := hf r2.value
  if oldHash ≠ newHash then
    (r2, callObservers r2 r2.value)
  else
    (r2, [])

/-- Embedding of `Reactive::notify` (src/reactive.rs, lines 436-439): call
every observer with the current value, mutating nothing. -/
def Reactive.notify {T O : Type} (r : Reactive T O) : Reactive T O × Log T O :=
  (r, callObservers r r.value)

/-- Embedding of `Reactive::derive` (src/reactive.rs, lines 159-176): read the
parent's value, compute `f` of it, build the child cell with that value, and
append to the parent one observer (identified here by `tag`; its behaviour —
`derived.update (fun _ => f value)` — is transcribed separately for the
propagation claims).  The result carries the parent's and the child's
notification traces of the construction itself: no step of the construction
calls `call_observers`, so both traces are empty. -/
def Reactive.derive {T O U : Type} (r : Reactive T O) (f : T → U) (tag : O) :
    (Reactive T O × Reactive U O) × (Log T O × Log U O) :=
  let derivedVal := f r.value
  let derived : Reactive U O := Reactive.new derivedVal
  ((Reactive.add_observer r tag, derived), ([], []))

/-- Value of the cell after `update`: the transform is always applied
(when the transform fixes the value, not committing is the same as
committing). -/
theorem update_fst_value {T O : Type} [DecidableEq T] (r : Reactive T O) (f : T → T) :
    (Reactive.update r f).1.value = f r.value := by
  by_cases h : f r.value = r.value
  · simp [Reactive.update, h]
  · simp [Reactive.update, h]

/-- Claim C1: `update f` computes `newValue = f (current value)`; when
`newValue` differs from the current value it commits it (observers list
unchanged) and invokes every registered observer exactly once with the new
value; when `newValue` equals the current value the cell is completely
unchanged and zero observers are invoked. -/
theorem c1_update_conditional_commit_and_notify {T O : Type} [DecidableEq T]
    (r : Reactive T O) (f : T → T) :
    (f r.value ≠ r.value →
      (Reactive.update r f).1.value = f r.value ∧
      (Reactive.update r f).1.observers = r.observers ∧
      (Reactive.update r f).2 = r.observers.map (fun o => (o, f r.value))) ∧
    (f r.value = r.value →
      (Reactive.update r f).1 = r ∧ (Reactive.update r f).2 = []) := by
  constructor
  · intro h
    simp [Reactive.update, callObservers, h]
  · intro h
    simp [Reactive.update, callObservers, h]

/-- Witness for C1 at concrete inputs: a changing transform on `⟨0, [7]⟩`
commits and notifies; an identity transform leaves the cell alone. -/
theorem c1_update_conditional_commit_and_notify_witness :
    ((Reactive.update (⟨0, [7]⟩ : Reactive Nat Nat) (fun n => n + 1)).1.value = 1 ∧
     (Reactive.update (⟨0, [7]⟩ : Reactive Nat Nat) (fun n => n + 1)).2 = [(7, 1)]) ∧
    ((Reactive.update (⟨0, [7]⟩ : Reactive Nat Nat) (fun n => n)).1 = (⟨0, [7]⟩ : Reactive Nat Nat) ∧
     (Reactive.update (⟨0, [7]⟩ : Reactive Nat Nat) (fun n => n)).2 = []) := by
  have h1 := (c1_update_conditional_commit_and_notify (⟨0, [7]⟩ : Reactive Nat Nat)
    (fun n => n + 1)).1 (by decide)
  have h2 := (c1_update_conditional_commit_and_notify (⟨0, [7]⟩ : Reactive Nat Nat)
    (fun n => n)).2 (by decide)
  exact ⟨⟨h1.1, by simpa using h1.2.2⟩, h2⟩

/-- Claim C5: a finite single-threaded sequence of `update` calls with
transforms `f1, …, fk` leaves the cell holding `fk (… (f1 initial) …)`:
no call is lost, reordered or duplicated. -/
theorem c5_update_sequence_composes {T O : Type} [DecidableEq T]
    (r : Reactive T O) (fs : List (T → T)) :
    (fs.foldl (fun s f => (Reactive.update s f).1) r).value =
      fs.foldl (fun v f => f v) r.value := by
  induction fs generalizing r with
  | nil => rfl
  | cons f fs ih =>
      simp only [List.foldl_cons]
      rw [ih, update_fst_value]

/-- Claim C6: an `update` whose transform returns the value unchanged invokes
zero observers, while `update_unchecked` (and `set`) with that same unchanged
value still invoke every registered observer exactly once. -/
theorem c6_idempotent_update_vs_unconditional {T O : Type} [DecidableEq T]
    (r : Reactive T O) (f : T → T) (h : f r.value = r.value) :
    (Reactive.update r f).2 = [] ∧
    (Reactive.update_unchecked r f).2 = r.observers.map (fun o => (o, r.value)) ∧
    (Reactive.set r r.value).2 = r.observers.map (fun o => (o, r.value)) := by
  refine ⟨?_, ?_, ?_⟩
  · simp [Reactive.update, h]
  · simp [Reactive.update_unchecked, callObservers, h]
  · simp [Reactive.set, callObservers]

/-- Witness for C6 on `⟨5, [3]⟩` with the identity transform. -/
theorem c6_idempotent_update_vs_unconditional_witness :
    (Reactive.update (⟨5, [3]⟩ : Reactive Nat Nat) (fun n => n)).2 = [] ∧
    (Reactive.update_unchecked (⟨5, [3]⟩ : Reactive Nat Nat) (fun n => n)).2 = [(3, 5)] ∧
    (Reactive.set (⟨5, [3]⟩ : Reactive Nat Nat) 5).2 = [(3, 5)] := by
  have h := c6_idempotent_update_vs_unconditional (⟨5, [3]⟩ : Reactive Nat Nat)
    (fun n => n) (by decide)
  simpa using h

/-- Claim C8: after `clear_observers`, an `update` with a value-changing
transform invokes none of the previously registered observers, but still
commits the new value. -/
theorem c8_clear_observers_then_update {T O : Type} [DecidableEq T]
    (r : Reactive T O) (f : T → T) (h : f r.value ≠ r.value) :
    (Reactive.update (Reactive.clear_observers r) f).2 = [] ∧
    (Reactive.update (Reactive.clear_observers r) f).1.value = f r.value := by
  constructor
  · by_cases hc : f r.value = r.value
    · simp [Reactive.update, Reactive.clear_observers, hc]
    · simp [Reactive.update, Reactive.clear_observers, callObservers, hc]
  · rw [update_fst_value]
    rfl

/-- Witness for C8 on `⟨1, [2]⟩` with a changing transform. -/
theorem c8_clear_observers_then_update_witness :
    (Reactive.update (Reactive.clear_observers (⟨1, [2]⟩ : Reactive Nat Nat))
      (fun n => n + 1)).2 = [] ∧
    (Reactive.update (Reactive.clear_observers (⟨1, [2]⟩ : Reactive Nat Nat))
      (fun n => n + 1)).1.value = 2 := by
  have h := c8_clear_observers_then_update (⟨1, [2]⟩ : Reactive Nat Nat)
    (fun n => n + 1) (by decide)
  simpa using h

/-- Claim C10: `set v` is observationally equivalent to
`update_unchecked (fun _ => v)`: identical resulting cell and identical
notification trace — the cell ends holding `v` and every registered observer
is invoked exactly once with `v`, in registration order. -/
theorem c10_set_refines_update_unchecked {T O : Type} (r : Reactive T O) (v : T) :
    Reactive.set r v = Reactive.update_unchecked r (fun _ => v) ∧
    (Reactive.set r v).1.value = v ∧
    (Reactive.set r v).2 = r.observers.map (fun o => (o, v)) := by
  exact ⟨rfl, rfl, rfl⟩

/-- Claim C2: immediately after `derive r f`, the child's value equals
`f` of the parent's current value, the child has no observers yet, the parent
gained exactly the one new subscription at the end of its list with its value
untouched, and the construction produced zero observer invocations on either
the parent or the child. -/
theorem c2_derive_initial_value_no_notification {T O U : Type}
    (r : Reactive T O) (f : T → U) (tag : O) :
    (Reactive.derive r f tag).1.2.value = f r.value ∧
    (Reactive.derive r f tag).1.2.observers = ([] : List O) ∧
    (Reactive.derive r f tag).1.1.value = r.value ∧
    (Reactive.derive r f tag).1.1.observers = r.observers ++ [tag] ∧
    (Reactive.derive r f tag).2 = (([] : Log T O), ([] : Log U O)) := by
  exact ⟨rfl, rfl, rfl, rfl, rfl⟩

/-- Claim C7: `update_inplace` always leaves the cell holding the mutated
value (the mutator is applied on every path), and invokes every observer
exactly once if and only if the fingerprint of the value before the mutator
differs from the fingerprint after; a fingerprint collision therefore lets a
genuinely changed value pass without notification, as the final existential
exhibits on a concrete colliding instance. -/
theorem c7_update_inplace_fingerprint_gate {T O : Type}
    (hf : T → Nat) (r : Reactive T O) (f : T → T) :
    (Reactive.update_inplace hf r f).1.value = f r.value ∧
    (Reactive.update_inplace hf r f).1.observers = r.observers ∧
    (Reactive.update_inplace hf r f).2 =
      (if hf r.value = hf (f r.value) then ([] : Log T O)
       else r.observers.map (fun o => (o, f r.value))) ∧
    (∃ (hc : Nat → Nat) (rc : Reactive Nat Nat) (fc : Nat → Nat),
      fc rc.value ≠ rc.value ∧ rc.observers ≠ [] ∧ hc (fc rc.value) = hc rc.value ∧
      (Reactive.update_inplace hc rc fc).2 = [] ∧
      (Reactive.update_inplace hc rc fc).1.value = fc rc.value) := by
  refine ⟨?_, ?_, ?_, ?_⟩
  · by_cases hcond : hf r.value = hf (f r.value) <;>
      simp [Reactive.update_inplace, hcond]
  · by_cases hcond : hf r.value = hf (f r.value) <;>
      simp [Reactive.update_inplace, hcond]
  · by_cases hcond : hf r.value = hf (f r.value) <;>
      simp [Reactive.update_inplace, callObservers, hcond]
  · exact ⟨fun _ => 0, ⟨0, [1]⟩, fun n => n + 1, by decide, by decide, rfl, rfl, rfl⟩

/-!
Merge (src/macros.rs, `body!`, lines 40-62).  For each parent index `i`, merge
subscribes to parent `i` the closure
`move |val| combined.update_inplace_unchecked(|c| c.i = val.clone())`.
The transcriptions below instantiate the macro body at arities 2 and 3 (the
body is textually identical at every generated arity, only the field index
varies); the field assignment `c.i = val` becomes the function replacing the
`i`-th component of the tuple.
-/

/-- Observer subscribed to parent 0 of a 2-ary merge (src/macros.rs, lines
49-57, at index 0). -/
def mergeObs2_0 {T0 T1 O : Type} (combined : Reactive (T0 × T1) O) (v : T0) :
    Reactive (T0 × T1) O × Log (T0 × T1) O :=
  Reactive.update_inplace_unchecked combined (fun c => (v, c.2))

/-- Observer subscribed to parent 1 of a 2-ary merge (src/macros.rs, lines
49-57, at index 1). -/
def mergeObs2_1 {T0 T1 O : Type} (combined : Reactive (T0 × T1) O) (v : T1) :
    Reactive (T0 × T1) O × Log (T0 × T1) O :=
  Reactive.update_inplace_unchecked combined (fun c => (c.1, v))

/-- Observer subscribed to parent 0 of a 3-ary merge. -/
def mergeObs3_0 {T0 T1 T2 O : Type} (combined : Reactive (T0 × T1 × T2) O) (v : T0) :
    Reactive (T0 × T1 × T2) O × Log (T0 × T1 × T2) O :=
  Reactive.update_inplace_unchecked combined (fun c => (v, c.2.1, c.2.2))

/-- Observer subscribed to parent 1 of a 3-ary merge. -/
def mergeObs3_1 {T0 T1 T2 O : Type} (combined : Reactive (T0 × T1 × T2) O) (v : T1) :
    Reactive (T0 × T1 × T2) O × Log (T0 × T1 × T2) O :=
  Reactive.update_inplace_unchecked combined (fun c => (c.1, v, c.2.2))

/-- Observer subscribed to parent 2 of a 3-ary merge. -/
def mergeObs3_2 {T0 T1 T2 O : Type} (combined : Reactive (T0 × T1 × T2) O) (v : T2) :
    Reactive (T0 × T1 × T2) O × Log (T0 × T1 × T2) O :=
  Reactive.update_inplace_unchecked combined (fun c => (c.1, c.2.1, v))

/-- Claim C3: the observer merge subscribes to parent `i`, when invoked with
the parent's new value `v`, sets field `i` of the combined tuple to `v`
(leaving the other fields and the observer list alone) and then invokes every
observer of the combined cell exactly once with the new tuple — the trace is
the full observer list regardless of any equality or fingerprint on the
tuple (the definitions carry no equality or hash requirement at all).
Stated for both indices of the 2-ary instance and all three indices of the
3-ary instance of the macro body. -/
theorem c3_merge_observer_sets_field_notifies_unconditionally
    {T0 T1 T2 O : Type} (c2cell : Reactive (T0 × T1) O)
    (c3cell : Reactive (T0 × T1 × T2) O) (v0 : T0) (v1 : T1) (v2 : T2) :
    ((mergeObs2_0 c2cell v0).1.value = (v0, c2cell.value.2) ∧
     (mergeObs2_0 c2cell v0).1.observers = c2cell.observers ∧
     (mergeObs2_0 c2cell v0).2 =
       c2cell.observers.map (fun o => (o, (v0, c2cell.value.2)))) ∧
    ((mergeObs2_1 c2cell v1).1.value = (c2cell.value.1, v1) ∧
     (mergeObs2_1 c2cell v1).1.observers = c2cell.observers ∧
     (mergeObs2_1 c2cell v1).2 =
       c2cell.observers.map (fun o => (o, (c2cell.value.1, v1)))) ∧
    ((mergeObs3_0 c3cell v0).1.value = (v0, c3cell.value.2.1, c3cell.value.2.2) ∧
     (mergeObs3_0 c3cell v0).2 =
       c3cell.observers.map (fun o => (o, (v0, c3cell.value.2.1, c3cell.value.2.2)))) ∧
    ((mergeObs3_1 c3cell v1).1.value = (c3cell.value.1, v1, c3cell.value.2.2) ∧
     (mergeObs3_1 c3cell v1).2 =
       c3cell.observers.map (fun o => (o, (c3cell.value.1, v1, c3cell.value.2.2)))) ∧
    ((mergeObs3_2 c3cell v2).1.value = (c3cell.value.1, c3cell.value.2.1, v2) ∧
     (mergeObs3_2 c3cell v2).2 =
       c3cell.observers.map (fun o => (o, (c3cell.value.1, c3cell.value.2.1, v2)))) := by
  refine ⟨⟨rfl, rfl, rfl⟩, ⟨rfl, rfl, rfl⟩, ⟨rfl, rfl⟩, ⟨rfl, rfl⟩, ⟨rfl, rfl⟩⟩

/-!
Lock-failure model (src/reactive.rs, lines 236-244).  Every operation begins
with `self.value.lock().expect("unable to acquire lock on value")` (and the
observer side with the analogous message).  A `std::sync::Mutex` whose holder
failed while holding it is poisoned, and `lock()` then returns an error;
`.expect(msg)` turns that error into a panic with `msg`.  The model keeps the
lock state abstract (healthy or poisoned) and gives operations an outcome
type with three shapes: a normal result, a recoverable error value handed to
the caller (the policy the spec asks for — the embedded code never produces
this shape), and a panic (a fatal fault carrying the panic message, which is
what `.expect` does). -/

/-- Panic message of `acq_val_lock` (src/reactive.rs, line 237). -/
def valLockMsg : String := "unable to acquire lock on value"

/-- Panic message of `acq_obs_lock` (src/reactive.rs, line 243). -/
def obsLockMsg : String := "unable to acquire lock on observers"

/-- State of a cell's mutual-exclusion lock: healthy, or poisoned because a
previous holder failed while holding it. -/
inductive LockState where
  | healthy : LockState
  | poisoned : LockState
deriving DecidableEq

/-- The error taxonomy the spec prescribes for lock failures. -/
inductive LockError where
  | lockAcquisitionFailure : LockError
deriving DecidableEq

/-- Outcome of an operation that must first acquire the lock.  `ok` is a
normal result; `recoverable` is an error value surfaced to the caller
(required by the spec's claim, never produced by the code); `panicked` is a
fatal fault with the panic message (what `.expect` produces). -/
inductive OpResult (T : Type) where
  | ok : T → OpResult T
  | recoverable : LockError → OpResult T
  | panicked : String → OpResult T
deriving DecidableEq

/-- Embedding of `acq_val_lock` (src/reactive.rs, lines 236-238): on a
healthy lock, hand the protected value over; on a poisoned lock, `.expect`
panics with its message. -/
def acq_val_lock {T : Type} (ls : LockState) (v : T) : OpResult T :=
  match ls with
  | .healthy => .ok v
  | .poisoned => .panicked valLockMsg

/-- Embedding of `Reactive::value` (src/reactive.rs, lines 98-103) including
its lock acquisition: clone the value under the lock. -/
def value_read {T : Type} (ls : LockState) (v : T) : OpResult T :=
  acq_val_lock ls v

/-- Embedding of `Reactive::update` including its lock acquisition
(src/reactive.rs, lines 361-371): the method first calls `acq_val_lock` and
only then runs the conditional update. -/
def update_locked {T O : Type} [DecidableEq T] (ls : LockState)
    (r : Reactive T O) (f : T → T) : OpResult (Reactive T O × Log T O) :=
  match acq_val_lock ls r.value with
  | .ok _ => .ok (Reactive.update r f)
  | .recoverable e => .recoverable e
  | .panicked m => .panicked m

/-- Counterexample to claim C9 as stated: on a poisoned lock, `value` does
not surface a recoverable `LockAcquisitionFailure` to the caller — it panics
(a fatal fault) with the `expect` message. -/
theorem c9_poisoned_lock_not_recoverable_counterexample :
    value_read LockState.poisoned (0 : Nat) = OpResult.panicked valLockMsg ∧
    value_read LockState.poisoned (0 : Nat) ≠
      OpResult.recoverable LockError.lockAcquisitionFailure := by
  exact ⟨rfl, by decide⟩

/-- Claim C9 amended: when the lock cannot be acquired (poisoned), every
subsequent operation fails by panicking with the fixed `expect` message —
the condition is treated as fatal, never surfaced as a recoverable error
value, and the operation never silently proceeds on the value. -/
theorem c9_poisoned_lock_is_fatal {T O : Type} [DecidableEq T]
    (v : T) (r : Reactive T O) (f : T → T) :
    value_read LockState.poisoned v = OpResult.panicked valLockMsg ∧
    (∀ e, value_read LockState.poisoned v ≠ OpResult.recoverable e) ∧
    (∀ w, value_read LockState.poisoned v ≠ OpResult.ok w) ∧
    update_locked LockState.poisoned r f = OpResult.panicked valLockMsg ∧
    (∀ e, update_locked LockState.poisoned r f ≠ OpResult.recoverable e) ∧
    value_read LockState.healthy v = OpResult.ok v := by
  refine ⟨rfl, ?_, ?_, rfl, ?_, rfl⟩
  · intro e hcontra
    exact OpResult.noConfusion hcontra
  · intro w hcontra
    exact OpResult.noConfusion hcontra
  · intro e hcontra
    exact OpResult.noConfusion hcontra

/-!
The merge/derive chain of claim C4, transcribed cell by cell.  The scenario
builds `a = Reactive("hazash")`, `b = Reactive(0)`,
`m = (&a, &b).merge() : Reactive<(String, usize)>` and
`d = m.derive(|(s, n)| s.len() + n)`.  The dependency graph is a DAG of four
cells; the observers actually registered are known closures (the 2-ary merge
closures on `a` and `b`, the derive closure on `m`, nothing on `d`), so the
propagation is interpreted by running each cell's notification trace through
the transcription of the closure subscribed there, depth first, exactly as
the nested `call_observers` loops run in the source. -/

/-- The four cells of the C4 scenario.  `a` and `b` each carry one observer
(the merge closure for their index, tagged `()`), `m` carries one observer
(the derive closure, tagged `()`), and `d` carries none (its observer type is
`Empty`, so its trace is necessarily empty). -/
structure W4 where
  a : Reactive String Unit
  b : Reactive Nat Unit
  m : Reactive (String × Nat) Unit
  d : Reactive Nat Empty

/-- The derive function of the scenario: `|(s, n)| s.len() + n`. -/
def c4f : String × Nat → Nat :=
  fun p => p.1.length + p.2

/-- Run the trace of cell `d`: `d` has no observers, so there is nothing to
interpret (an element of the trace would carry an `Empty` tag). -/
def runDLog (w : W4) (log : Log Nat Empty) : W4 :=
  log.foldl (fun _ e => e.1.elim) w

/-- `d.update f` (the child side of derive: src/reactive.rs, line 172),
followed by interpreting `d`'s trace. -/
def dUpdate (w : W4) (f : Nat → Nat) : W4 :=
  let p := Reactive.update w.d f
  runDLog { w with d := p.1 } p.2

/-- The derive closure subscribed on `m` (src/reactive.rs, lines 170-173):
`move |value| derived.update(|_| f(value))`. -/
def runMEvent (w : W4) (v : String × Nat) : W4 :=
  dUpdate w (fun _ => c4f v)

/-- Interpret `m`'s notification trace in order. -/
def runMLog (w : W4) (log : Log (String × Nat) Unit) : W4 :=
  log.foldl (fun w2 e => runMEvent w2 e.2) w

/-- `m.update_inplace_unchecked g` (the combined side of merge:
src/macros.rs, line 56), followed by interpreting `m`'s trace. -/
def mUpdateInplaceUnchecked (w : W4) (g : String × Nat → String × Nat) : W4 :=
  let p := Reactive.update_inplace_unchecked w.m g
  runMLog { w with m := p.1 } p.2

/-- The merge closure subscribed on `a` (src/macros.rs, lines 49-57, index
0): `move |val| combined.update_inplace_unchecked(|c| c.0 = val.clone())`. -/
def runAEvent (w : W4) (v : String) : W4 :=
  mUpdateInplaceUnchecked w (fun c => (v, c.2))

/-- Interpret `a`'s notification trace in order. -/
def runALog (w : W4) (log : Log String Unit) : W4 :=
  log.foldl (fun w2 e => runAEvent w2 e.2) w

/-- `a.update f` (src/reactive.rs, lines 361-371), followed by interpreting
`a`'s trace. -/
def aUpdate (w : W4) (f : String → String) : W4 :=
  let p := Reactive.update w.a f
  runALog { w with a := p.1 } p.2

/-- The merge closure subscribed on `b` (src/macros.rs, lines 49-57, index
1): `move |val| combined.update_inplace_unchecked(|c| c.1 = val.clone())`. -/
def runBEvent (w : W4) (v : Nat) : W4 :=
  mUpdateInplaceUnchecked w (fun c => (c.1, v))

/-- Interpret `b`'s notification trace in order. -/
def runBLog (w : W4) (log : Log Nat Unit) : W4 :=
  log.foldl (fun w2 e => runBEvent w2 e.2) w

/-- `b.update f`, followed by interpreting `b`'s trace. -/
def bUpdate (w : W4) (f : Nat → Nat) : W4 :=
  let p := Reactive.update w.b f
  runBLog { w with b := p.1 } p.2

/-- Construction of the C4 world, transcribing the source order: the two
parent cells; then merge (src/macros.rs, lines 44-59): read each parent's
value, build the combined cell from that tuple, subscribe one observer to
each parent; then derive (src/reactive.rs, lines 159-176): build `d` from
`c4f` of `m`'s current value and subscribe the derive observer to `m`. -/
def mkW4 (a0 : String) (b0 : Nat) : W4 :=
  let a : Reactive String Unit := Reactive.new a0
  let b : Reactive Nat Unit := Reactive.new b0
  let values := (a.value, b.value)
  let m : Reactive (String × Nat) Unit := Reactive.new values
  let a := Reactive.add_observer a ()
  let b := Reactive.add_observer b ()
  let d : Reactive Nat Empty := Reactive.new (c4f m.value)
  let m := Reactive.add_observer m ()
  { a := a, b := b, m := m, d := d }

/-- Claim C4: with `a = Reactive("hazash")`, `b = Reactive(0)` and
`d = merge(a, b).derive(|(s, n)| s.len() + n)`: initially `d.get() = 6`;
after `b.update(|_| 5)`, `d.get() = 11`; after `a.update(|_| "mouse")`,
`d.get() = 10`. -/
theorem c4_merge_derive_chain :
    (mkW4 ("hazash") 0).d.value = 6 ∧
    (bUpdate (mkW4 ("hazash") 0) (fun _ => 5)).d.value = 11 ∧
    (aUpdate (bUpdate (mkW4 ("hazash") 0) (fun _ => 5))
      (fun _ => ("mouse"))).d.value = 10 := by
  refine ⟨rfl, rfl, ?_⟩
  rfl

end Reactivate
